import Mathlib

/-!
Shallow embedding of the delta-storage SDK client.

Source files embedded here:
- src/index.ts   (authorization gate, DeltaStorageSDK class and its methods)
- src/file.ts    (standalone file operations bound to the class later)

The imported modules src/constants.ts (OPERATION_SCOPE) and
src/authorization.ts are not present under src/; where needed their content
is modelled from the spec, as marked on the individual definitions.

Conventions: a thrown Error is modelled as Except.error carrying the message,
an issued axios call is modelled as the HttpRequest value describing it, and
JavaScript numbers are modelled by JSNum (an integer or NaN, the only numeric
values this client can produce).
-/

namespace DeltaSDK

/-- JavaScript number as this client manipulates it: an integer, or NaN
(the result of parseInt on a string with no leading digits). -/
inductive JSNum where
  | nan : JSNum
  | int : Int → JSNum
deriving DecidableEq, Repr

/-- JavaScript strict equality on numbers: NaN compares false to everything,
integers compare by value. -/
def jsStrictEqNum : JSNum → JSNum → Bool
  | JSNum.nan, _ => false
  | _, JSNum.nan => false
  | JSNum.int a, JSNum.int b => a == b

/-- Unsigned 32-bit residue of an integer. -/
def toUInt32n (x : Int) : Nat := (x % (4294967296 : Int)).toNat

/-- Reinterpret an unsigned 32-bit value as a signed wrapped one. -/
def ofUInt32n (n : Nat) : Int :=
  if n < 2147483648 then (n : Int) else (n : Int) - 4294967296

/-- ECMAScript ToInt32: NaN maps to 0, integers wrap into [-2^31, 2^31). -/
def toInt32 : JSNum → Int
  | JSNum.nan => 0
  | JSNum.int v => ofUInt32n (toUInt32n v)

/-- JavaScript bitwise AND: both operands go through ToInt32, then the
32-bit AND of their bit patterns is reinterpreted as signed. -/
def jsAnd (a b : JSNum) : JSNum :=
  JSNum.int (ofUInt32n (Nat.land (toUInt32n (toInt32 a)) (toUInt32n (toInt32 b))))

/-- src/index.ts lines 9-12: scope 0 allows everything, otherwise the granted
scope must contain every bit of the required flag. -/
def isCommandAllowed (scope flag : JSNum) : Bool :=
  if jsStrictEqNum scope (JSNum.int 0) then true
  else jsStrictEqNum (jsAnd scope flag) flag

/-- src/index.ts lines 14-22 (src/file.ts imports the same function from the
absent src/authorization.ts; spec section 4.2 states the identical contract).
The thrown Error is modelled as Except.error. -/
def verifyAuthorizedCommand (scope flag : JSNum) (message : String) :
    Except String Unit :=
  if isCommandAllowed scope flag then Except.ok () else Except.error message

/-- Decimal digit value of a character, if any. -/
def digitVal (c : Char) : Option Nat :=
  if '0' ≤ c ∧ c ≤ '9' then some (c.toNat - '0'.toNat) else none

/-- Hexadecimal digit value of a character, if any. -/
def hexDigitVal (c : Char) : Option Nat :=
  if '0' ≤ c ∧ c ≤ '9' then some (c.toNat - '0'.toNat)
  else if 'a' ≤ c ∧ c ≤ 'f' then some (c.toNat - 'a'.toNat + 10)
  else if 'A' ≤ c ∧ c ≤ 'F' then some (c.toNat - 'A'.toNat + 10)
  else none

/-- Longest prefix of digit values recognised by f. -/
def takeDigits (f : Char → Option Nat) : List Char → List Nat
  | [] => []
  | c :: cs =>
    match f c with
    | some d => d :: takeDigits f cs
    | none => []

/-- Value of a digit list in the given base, most significant first. -/
def digitsToNat (base : Nat) (ds : List Nat) : Nat :=
  ds.foldl (fun a d => a * base + d) 0

/-- Common JavaScript whitespace characters skipped by parseInt. -/
def isJsSpace (c : Char) : Bool :=
  c = ' ' ∨ c = '\t' ∨ c = '\n' ∨ c = '\r'

/-- ECMAScript parseInt with no radix argument, as called on src/index.ts
line 35: skip leading whitespace, read an optional sign, use base 16 when the
remainder starts with 0x or 0X and base 10 otherwise, consume the longest
prefix of digits of that base (later characters are ignored), and yield NaN
when there is no digit at all. -/
def parseIntJS (s : String) : JSNum :=
  let cs0 := s.data.dropWhile isJsSpace
  let signed : Int × List Char :=
    match cs0 with
    | '-' :: rest => (-1, rest)
    | '+' :: rest => (1, rest)
    | _ => (1, cs0)
  let based : Nat × List Char :=
    match signed.2 with
    | '0' :: 'x' :: rest => (16, rest)
    | '0' :: 'X' :: rest => (16, rest)
    | _ => (10, signed.2)
  let ds := takeDigits (if based.1 = 16 then hexDigitVal else digitVal) based.2
  if ds.isEmpty then JSNum.nan
  else JSNum.int (signed.1 * (digitsToNat based.1 ds : Int))

/-- JavaScript String.prototype.split with a one-character separator, on the
character list of the string: "a/b".split yields ["a","b"], "".split yields
[""], "a/".split yields ["a",""]. -/
def splitChar (sep : Char) : List Char → List (List Char)
  | [] => [[]]
  | c :: cs =>
    if c = sep then [] :: splitChar sep cs
    else
      match splitChar sep cs with
      | [] => [[c]]
      | r :: rs => (c :: r) :: rs

/-- JavaScript Array.prototype.join with a string separator, on character
lists: join of [] is empty, of [x] is x, otherwise the parts interleaved
with the separator. -/
def joinWith (sep : List Char) : List (List Char) → List Char
  | [] => []
  | [x] => x
  | x :: y :: xs => x ++ sep ++ joinWith sep (y :: xs)

/-- String.prototype.split lifted back to strings. -/
def splitStr (s : String) (sep : Char) : List String :=
  (splitChar sep s.data).map String.mk

/-- Modelled from the spec: src/constants.ts is absent from src/; spec
sections 3 and 8 list the capability bits in order, with scope 3 granting
exactly bits 1 and 2 (read-file and upload-file). Bit for read-file. -/
def OPERATION_SCOPE.READ_FILE : Nat := 1

/-- Modelled from the spec: bit for upload-file (bit 2, granted by scope 3). -/
def OPERATION_SCOPE.UPLOAD_FILE : Nat := 2

/-- Modelled from the spec: bit for delete-file, next in the listed order. -/
def OPERATION_SCOPE.DELETE_FILE : Nat := 4

/-- Modelled from the spec: bit for read-directory. -/
def OPERATION_SCOPE.READ_DIRECTORY : Nat := 8

/-- Modelled from the spec: bit for create-directory. -/
def OPERATION_SCOPE.CREATE_DIRECTORY : Nat := 16

/-- Modelled from the spec: bit for delete-directory. -/
def OPERATION_SCOPE.DELETE_DIRECTORY : Nat := 32

/-- HTTP verb of an issued request. -/
inductive Method where
  | GET : Method
  | POST : Method
  | PUT : Method
  | DELETE : Method
deriving DecidableEq, Repr

/-- Opaque binary file content handed to uploadFile. -/
structure Blob where
  bytes : List Nat
deriving DecidableEq, Repr

/-- A value appended to a multipart FormData payload. -/
inductive FormVal where
  | str : String → FormVal
  | blob : Blob → FormVal
deriving DecidableEq, Repr

/-- A value inside a plain JSON request body, mirroring the literal object
shapes used by the source (optional fields stay optional). -/
inductive JsonVal where
  | str : String → JsonVal
  | optStr : Option String → JsonVal
  | list : List String → JsonVal
  | optList : Option (List String) → JsonVal
deriving DecidableEq, Repr

/-- Body of an issued request: none (GET/DELETE), a JSON object given as
ordered fields, or a multipart form given as ordered fields. -/
inductive ReqBody where
  | empty : ReqBody
  | json : List (String × JsonVal) → ReqBody
  | form : List (String × FormVal) → ReqBody
deriving DecidableEq, Repr

/-- Description of one axios call: verb, full URL, headers, body. -/
structure HttpRequest where
  method : Method
  url : String
  headers : List (String × String)
  body : ReqBody
deriving DecidableEq, Repr

/-- Every request in the source carries exactly this header object. -/
def authHeaders (apiKey : String) : List (String × String) :=
  [("Authorization", "Bearer " ++ apiKey)]

/-- Session state populated by the constructor (src/index.ts lines 24-50).
The socket listener is an external collaborator and is not modelled. -/
structure DeltaStorageSDK where
  apiKey : String
  scope : JSNum
  host : String
  edgeToken : Option String
deriving DecidableEq, Repr

/-- Host for NODE_ENV development (src/index.ts line 38). -/
def devHost : String := "http://localhost:1337"

/-- Host otherwise (src/index.ts line 40). -/
def prodHost : String := "https://api.delta.storage"

/-- src/index.ts line 42: drop one trailing slash if present. -/
def normalizeHost (h : String) : String :=
  if h.data.getLast? = some '/' then String.mk h.data.dropLast else h

/-- src/index.ts lines 31-50: split the key on dots, destructure the first
five fields (a missing field is JavaScript undefined, which parseInt receives
as the string "undefined" and the edgeToken field keeps as no value), parse
the second as the scope, pick the host by deployment mode, keep the raw key. -/
def DeltaStorageSDK.construct (dev : Bool) (apiKey : String) : DeltaStorageSDK :=
  let fields := splitStr apiKey '.'
  { apiKey := apiKey
    scope := parseIntJS (fields.getD 1 "undefined")
    host := normalizeHost (if dev then devHost else prodHost)
    edgeToken := fields[4]? }

/-- JavaScript string coercion of a possibly-undefined string value, as
FormData.append performs on it. -/
def jsString : Option String → String
  | some s => s
  | none => "undefined"

/-- Join a list of strings with a separator (Array.prototype.join). -/
def joinStrings (sep : String) : List String → String
  | [] => ""
  | [x] => x
  | x :: y :: xs => x ++ sep ++ joinStrings sep (y :: xs)

/-- JSON.stringify of an array of strings, as used for storageClasses in
src/file.ts line 39 (string escaping is not modelled; the storage class
names in use are plain words). -/
def jsonStringifyStrList (xs : List String) : String :=
  "[" ++ joinStrings "," (xs.map (fun s => "\"" ++ s ++ "\"")) ++ "]"

namespace DeltaStorageSDK

/-- src/index.ts lines 52-63. -/
def readFile (sdk : DeltaStorageSDK) (id : Option String) :
    Except String HttpRequest := do
  verifyAuthorizedCommand sdk.scope (JSNum.int OPERATION_SCOPE.READ_FILE)
    "READ_FILE is not allowed."
  pure ⟨Method.GET, sdk.host ++ ("/api/files/" ++ id.getD ""),
    authHeaders sdk.apiKey, ReqBody.empty⟩

/-- src/index.ts lines 65-90: multipart form in append order, the edge token
included; there is no storage-classes parameter on this method. -/
def uploadFile (sdk : DeltaStorageSDK) (name : String) (file : Blob)
    (collectionName directoryId : String) : Except String HttpRequest := do
  verifyAuthorizedCommand sdk.scope (JSNum.int OPERATION_SCOPE.UPLOAD_FILE)
    "UPLOAD_FILE is not allowed."
  pure ⟨Method.POST, sdk.host ++ "/api/files/upload", authHeaders sdk.apiKey,
    ReqBody.form
      [("name", FormVal.str name),
       ("file", FormVal.blob file),
       ("collectionName", FormVal.str collectionName),
       ("directoryId", FormVal.str directoryId),
       ("edgeToken", FormVal.str (jsString sdk.edgeToken))]⟩

/-- src/index.ts lines 92-103. -/
def deleteFile (sdk : DeltaStorageSDK) (id : String) :
    Except String HttpRequest := do
  verifyAuthorizedCommand sdk.scope (JSNum.int OPERATION_SCOPE.DELETE_FILE)
    "DELETE_FILE is not allowed."
  pure ⟨Method.DELETE, sdk.host ++ ("/api/files/" ++ id),
    authHeaders sdk.apiKey, ReqBody.empty⟩

/-- src/index.ts lines 105-120: requires the OR of the upload and delete
bits. -/
def renameFile (sdk : DeltaStorageSDK) (id name : String) :
    Except String HttpRequest := do
  verifyAuthorizedCommand sdk.scope
    (JSNum.int (Nat.lor OPERATION_SCOPE.UPLOAD_FILE OPERATION_SCOPE.DELETE_FILE))
    "RENAME_FILE is not allowed."
  pure ⟨Method.PUT, sdk.host ++ ("/api/files/" ++ id), authHeaders sdk.apiKey,
    ReqBody.json [("name", JsonVal.str name)]⟩

/-- src/index.ts lines 122-139. -/
def readDirectory (sdk : DeltaStorageSDK) (id : Option String) :
    Except String HttpRequest := do
  verifyAuthorizedCommand sdk.scope (JSNum.int OPERATION_SCOPE.READ_DIRECTORY)
    "READ_DIRECTORY is not allowed."
  pure ⟨Method.GET, sdk.host ++ ("/api/directory/" ++ id.getD ""),
    authHeaders sdk.apiKey, ReqBody.empty⟩

/-- src/index.ts lines 141-155: the path string is split on slashes and the
parts are joined back with the literal text between query parameters. -/
def readDirectoryBySegment (sdk : DeltaStorageSDK) (segments : String) :
    Except String HttpRequest := do
  verifyAuthorizedCommand sdk.scope (JSNum.int OPERATION_SCOPE.READ_DIRECTORY)
    "READ_DIRECTORY is not allowed."
  pure ⟨Method.GET,
    sdk.host ++ ("/api/directory?segment=" ++
      String.mk (joinWith ("&segment=".data) (splitChar '/' segments.data))),
    authHeaders sdk.apiKey, ReqBody.empty⟩

/-- src/index.ts lines 157-173. -/
def createDirectory (sdk : DeltaStorageSDK) (name : String)
    (parentDirectoryId : Option String) : Except String HttpRequest := do
  verifyAuthorizedCommand sdk.scope (JSNum.int OPERATION_SCOPE.CREATE_DIRECTORY)
    "CREATE_DIRECTORY is not allowed."
  pure ⟨Method.POST, sdk.host ++ "/api/directory/create",
    authHeaders sdk.apiKey,
    ReqBody.json [("name", JsonVal.str name),
      ("parentDirectoryId", JsonVal.optStr parentDirectoryId)]⟩

/-- src/index.ts lines 175-191: requires the OR of the create-directory and
delete-directory bits. -/
def renameDirectory (sdk : DeltaStorageSDK) (id name : String) :
    Except String HttpRequest := do
  verifyAuthorizedCommand sdk.scope
    (JSNum.int (Nat.lor OPERATION_SCOPE.CREATE_DIRECTORY
      OPERATION_SCOPE.DELETE_DIRECTORY))
    "UPDATE_DIRECTORY is not allowed."
  pure ⟨Method.PUT, sdk.host ++ ("/api/directory/" ++ id),
    authHeaders sdk.apiKey, ReqBody.json [("name", JsonVal.str name)]⟩

/-- src/index.ts lines 193-213. -/
def move (sdk : DeltaStorageSDK) (parentId : String)
    (childrenIds : List String) (childrenFileIds : Option (List String)) :
    Except String HttpRequest := do
  verifyAuthorizedCommand sdk.scope
    (JSNum.int (Nat.lor OPERATION_SCOPE.CREATE_DIRECTORY
      OPERATION_SCOPE.DELETE_DIRECTORY))
    "UPDATE_DIRECTORY is not allowed."
  pure ⟨Method.PUT, sdk.host ++ ("/api/directory/" ++ parentId),
    authHeaders sdk.apiKey,
    ReqBody.json [("move", JsonVal.list childrenIds),
      ("moveFiles", JsonVal.optList childrenFileIds)]⟩

/-- src/index.ts lines 215-227. -/
def deleteDirectory (sdk : DeltaStorageSDK) (id : String) :
    Except String HttpRequest := do
  verifyAuthorizedCommand sdk.scope (JSNum.int OPERATION_SCOPE.DELETE_DIRECTORY)
    "DELETE_DIRECTORY is not allowed."
  pure ⟨Method.DELETE, sdk.host ++ ("/api/directory/" ++ id),
    authHeaders sdk.apiKey, ReqBody.empty⟩

end DeltaStorageSDK

/-- Body of the size-query responses: the totalSize field, a bigint in the
declared return type, hence an unbounded integer here. -/
structure SizeResponse where
  totalSize : Int
deriving DecidableEq, Repr

namespace DeltaStorageSDK

/-- src/index.ts lines 229-237: no authorization check; issues the request
and returns the unwrapped totalSize field of the response body. -/
def getTotalSize (sdk : DeltaStorageSDK) (resp : SizeResponse) :
    Except String (HttpRequest × Int) :=
  Except.ok
    (⟨Method.GET, sdk.host ++ "/api/total-size", authHeaders sdk.apiKey,
      ReqBody.empty⟩,
     resp.totalSize)

/-- src/index.ts lines 239-247: no authorization check; issues the request
and returns the unwrapped totalSize field of the response body. -/
def readDirectorySize (sdk : DeltaStorageSDK) (id : String)
    (resp : SizeResponse) : Except String (HttpRequest × Int) :=
  Except.ok
    (⟨Method.GET, sdk.host ++ ("/api/directory/" ++ (id ++ "/size")),
      authHeaders sdk.apiKey, ReqBody.empty⟩,
     resp.totalSize)

end DeltaStorageSDK

namespace fileTs

/-- src/file.ts lines 6-17: same gate as the class method, but the path has
no api prefix. -/
def readFile (sdk : DeltaStorageSDK) (id : Option String) :
    Except String HttpRequest := do
  verifyAuthorizedCommand sdk.scope (JSNum.int OPERATION_SCOPE.READ_FILE)
    "READ_FILE is not allowed."
  pure ⟨Method.GET, sdk.host ++ ("/files/" ++ id.getD ""),
    authHeaders sdk.apiKey, ReqBody.empty⟩

/-- src/file.ts lines 19-46: multipart form in append order; storageClasses
is appended only when supplied and nonempty, and no edgeToken field is
appended by this version. -/
def uploadFile (sdk : DeltaStorageSDK) (name : String) (file : Blob)
    (collectionName directoryId : String)
    (storageClasses : Option (List String)) : Except String HttpRequest := do
  verifyAuthorizedCommand sdk.scope (JSNum.int OPERATION_SCOPE.UPLOAD_FILE)
    "UPLOAD_FILE is not allowed."
  pure ⟨Method.POST, sdk.host ++ "/files/upload", authHeaders sdk.apiKey,
    ReqBody.form
      ([("name", FormVal.str name),
        ("file", FormVal.blob file),
        ("collectionName", FormVal.str collectionName),
        ("directoryId", FormVal.str directoryId)] ++
       (match storageClasses with
        | some xs =>
          if 0 < xs.length then
            [("storageClasses", FormVal.str (jsonStringifyStrList xs))]
          else []
        | none => []))⟩

/-- src/file.ts lines 48-59. -/
def deleteFile (sdk : DeltaStorageSDK) (id : String) :
    Except String HttpRequest := do
  verifyAuthorizedCommand sdk.scope (JSNum.int OPERATION_SCOPE.DELETE_FILE)
    "DELETE_FILE is not allowed."
  pure ⟨Method.DELETE, sdk.host ++ ("/files/" ++ id),
    authHeaders sdk.apiKey, ReqBody.empty⟩

/-- src/file.ts lines 61-80. -/
def renameFile (sdk : DeltaStorageSDK) (id name : String) :
    Except String HttpRequest := do
  verifyAuthorizedCommand sdk.scope
    (JSNum.int (Nat.lor OPERATION_SCOPE.UPLOAD_FILE OPERATION_SCOPE.DELETE_FILE))
    "RENAME_FILE is not allowed."
  pure ⟨Method.PUT, sdk.host ++ ("/files/" ++ id), authHeaders sdk.apiKey,
    ReqBody.json [("name", JsonVal.str name)]⟩

/-- src/file.ts lines 82-102. -/
def updateFile (sdk : DeltaStorageSDK) (id : String) (name : Option String)
    (storageClasses : Option (List String)) : Except String HttpRequest := do
  verifyAuthorizedCommand sdk.scope
    (JSNum.int (Nat.lor OPERATION_SCOPE.UPLOAD_FILE OPERATION_SCOPE.DELETE_FILE))
    "UPDATE_FILE is not allowed."
  pure ⟨Method.PUT, sdk.host ++ ("/files/" ++ id), authHeaders sdk.apiKey,
    ReqBody.json [("name", JsonVal.optStr name),
      ("storageClasses", JsonVal.optList storageClasses)]⟩

end fileTs

section GateLemmas

/-- The gate followed by a continuation runs the continuation when the scope
allows the flag. -/
theorem verify_bind_ok {α : Type} {scope flag : JSNum} {msg : String}
    (k : Unit → Except String α)
    (h : isCommandAllowed scope flag = true) :
    (verifyAuthorizedCommand scope flag msg >>= k) = k () := by
  simp [verifyAuthorizedCommand, h, Bind.bind, Except.bind]

/-- The gate followed by a continuation stops with the message when the scope
does not allow the flag. -/
theorem verify_bind_err {α : Type} {scope flag : JSNum} {msg : String}
    (k : Unit → Except String α)
    (h : isCommandAllowed scope flag = false) :
    (verifyAuthorizedCommand scope flag msg >>= k) = Except.error msg := by
  simp [verifyAuthorizedCommand, h, Bind.bind, Except.bind]

end GateLemmas

section OpEquations

/-- readFile as a case split on the gate. -/
theorem readFile_eq (sdk : DeltaStorageSDK) (id : Option String) :
    sdk.readFile id =
      if isCommandAllowed sdk.scope (JSNum.int OPERATION_SCOPE.READ_FILE) then
        Except.ok ⟨Method.GET, sdk.host ++ ("/api/files/" ++ id.getD ""),
          authHeaders sdk.apiKey, ReqBody.empty⟩
      else Except.error "READ_FILE is not allowed." := by
  cases h : isCommandAllowed sdk.scope (JSNum.int OPERATION_SCOPE.READ_FILE)
  · simp [DeltaStorageSDK.readFile, verify_bind_err _ h, h]
  · simp [DeltaStorageSDK.readFile, verify_bind_ok _ h, h, Pure.pure, Except.pure]

/-- uploadFile (class version) as a case split on the gate. -/
theorem uploadFile_eq (sdk : DeltaStorageSDK) (name : String) (file : Blob)
    (collectionName directoryId : String) :
    sdk.uploadFile name file collectionName directoryId =
      if isCommandAllowed sdk.scope (JSNum.int OPERATION_SCOPE.UPLOAD_FILE) then
        Except.ok ⟨Method.POST, sdk.host ++ "/api/files/upload",
          authHeaders sdk.apiKey,
          ReqBody.form
            [("name", FormVal.str name),
             ("file", FormVal.blob file),
             ("collectionName", FormVal.str collectionName),
             ("directoryId", FormVal.str directoryId),
             ("edgeToken", FormVal.str (jsString sdk.edgeToken))]⟩
      else Except.error "UPLOAD_FILE is not allowed." := by
  cases h : isCommandAllowed sdk.scope (JSNum.int OPERATION_SCOPE.UPLOAD_FILE)
  · simp [DeltaStorageSDK.uploadFile, verify_bind_err _ h, h]
  · simp [DeltaStorageSDK.uploadFile, verify_bind_ok _ h, h, Pure.pure, Except.pure]

/-- deleteFile as a case split on the gate. -/
theorem deleteFile_eq (sdk : DeltaStorageSDK) (id : String) :
    sdk.deleteFile id =
      if isCommandAllowed sdk.scope (JSNum.int OPERATION_SCOPE.DELETE_FILE) then
        Except.ok ⟨Method.DELETE, sdk.host ++ ("/api/files/" ++ id),
          authHeaders sdk.apiKey, ReqBody.empty⟩
      else Except.error "DELETE_FILE is not allowed." := by
  cases h : isCommandAllowed sdk.scope (JSNum.int OPERATION_SCOPE.DELETE_FILE)
  · simp [DeltaStorageSDK.deleteFile, verify_bind_err _ h, h]
  · simp [DeltaStorageSDK.deleteFile, verify_bind_ok _ h, h, Pure.pure, Except.pure]

/-- renameFile (class version) as a case split on the gate. -/
theorem renameFile_eq (sdk : DeltaStorageSDK) (id name : String) :
    sdk.renameFile id name =
      if isCommandAllowed sdk.scope
          (JSNum.int (Nat.lor OPERATION_SCOPE.UPLOAD_FILE OPERATION_SCOPE.DELETE_FILE)) then
        Except.ok ⟨Method.PUT, sdk.host ++ ("/api/files/" ++ id),
          authHeaders sdk.apiKey, ReqBody.json [("name", JsonVal.str name)]⟩
      else Except.error "RENAME_FILE is not allowed." := by
  cases h : isCommandAllowed sdk.scope
      (JSNum.int (Nat.lor OPERATION_SCOPE.UPLOAD_FILE OPERATION_SCOPE.DELETE_FILE))
  · simp [DeltaStorageSDK.renameFile, verify_bind_err _ h, h]
  · simp [DeltaStorageSDK.renameFile, verify_bind_ok _ h, h, Pure.pure, Except.pure]

/-- readDirectory as a case split on the gate. -/
theorem readDirectory_eq (sdk : DeltaStorageSDK) (id : Option String) :
    sdk.readDirectory id =
      if isCommandAllowed sdk.scope (JSNum.int OPERATION_SCOPE.READ_DIRECTORY) then
        Except.ok ⟨Method.GET, sdk.host ++ ("/api/directory/" ++ id.getD ""),
          authHeaders sdk.apiKey, ReqBody.empty⟩
      else Except.error "READ_DIRECTORY is not allowed." := by
  cases h : isCommandAllowed sdk.scope (JSNum.int OPERATION_SCOPE.READ_DIRECTORY)
  · simp [DeltaStorageSDK.readDirectory, verify_bind_err _ h, h]
  · simp [DeltaStorageSDK.readDirectory, verify_bind_ok _ h, h, Pure.pure, Except.pure]

/-- readDirectoryBySegment as a case split on the gate. -/
theorem readDirectoryBySegment_eq (sdk : DeltaStorageSDK) (segments : String) :
    sdk.readDirectoryBySegment segments =
      if isCommandAllowed sdk.scope (JSNum.int OPERATION_SCOPE.READ_DIRECTORY) then
        Except.ok ⟨Method.GET,
          sdk.host ++ ("/api/directory?segment=" ++
            String.mk (joinWith ("&segment=".data) (splitChar '/' segments.data))),
          authHeaders sdk.apiKey, ReqBody.empty⟩
      else Except.error "READ_DIRECTORY is not allowed." := by
  cases h : isCommandAllowed sdk.scope (JSNum.int OPERATION_SCOPE.READ_DIRECTORY)
  · simp [DeltaStorageSDK.readDirectoryBySegment, verify_bind_err _ h, h]
  · simp [DeltaStorageSDK.readDirectoryBySegment, verify_bind_ok _ h, h,
      Pure.pure, Except.pure]

/-- createDirectory as a case split on the gate. -/
theorem createDirectory_eq (sdk : DeltaStorageSDK) (name : String)
    (parentDirectoryId : Option String) :
    sdk.createDirectory name parentDirectoryId =
      if isCommandAllowed sdk.scope (JSNum.int OPERATION_SCOPE.CREATE_DIRECTORY) then
        Except.ok ⟨Method.POST, sdk.host ++ "/api/directory/create",
          authHeaders sdk.apiKey,
          ReqBody.json [("name", JsonVal.str name),
            ("parentDirectoryId", JsonVal.optStr parentDirectoryId)]⟩
      else Except.error "CREATE_DIRECTORY is not allowed." := by
  cases h : isCommandAllowed sdk.scope (JSNum.int OPERATION_SCOPE.CREATE_DIRECTORY)
  · simp [DeltaStorageSDK.createDirectory, verify_bind_err _ h, h]
  · simp [DeltaStorageSDK.createDirectory, verify_bind_ok _ h, h, Pure.pure, Except.pure]

/-- renameDirectory as a case split on the gate. -/
theorem renameDirectory_eq (sdk : DeltaStorageSDK) (id name : String) :
    sdk.renameDirectory id name =
      if isCommandAllowed sdk.scope
          (JSNum.int (Nat.lor OPERATION_SCOPE.CREATE_DIRECTORY
            OPERATION_SCOPE.DELETE_DIRECTORY)) then
        Except.ok ⟨Method.PUT, sdk.host ++ ("/api/directory/" ++ id),
          authHeaders sdk.apiKey, ReqBody.json [("name", JsonVal.str name)]⟩
      else Except.error "UPDATE_DIRECTORY is not allowed." := by
  cases h : isCommandAllowed sdk.scope
      (JSNum.int (Nat.lor OPERATION_SCOPE.CREATE_DIRECTORY OPERATION_SCOPE.DELETE_DIRECTORY))
  · simp [DeltaStorageSDK.renameDirectory, verify_bind_err _ h, h]
  · simp [DeltaStorageSDK.renameDirectory, verify_bind_ok _ h, h, Pure.pure, Except.pure]

/-- move as a case split on the gate. -/
theorem move_eq (sdk : DeltaStorageSDK) (parentId : String)
    (childrenIds : List String) (childrenFileIds : Option (List String)) :
    sdk.move parentId childrenIds childrenFileIds =
      if isCommandAllowed sdk.scope
          (JSNum.int (Nat.lor OPERATION_SCOPE.CREATE_DIRECTORY
            OPERATION_SCOPE.DELETE_DIRECTORY)) then
        Except.ok ⟨Method.PUT, sdk.host ++ ("/api/directory/" ++ parentId),
          authHeaders sdk.apiKey,
          ReqBody.json [("move", JsonVal.list childrenIds),
            ("moveFiles", JsonVal.optList childrenFileIds)]⟩
      else Except.error "UPDATE_DIRECTORY is not allowed." := by
  cases h : isCommandAllowed sdk.scope
      (JSNum.int (Nat.lor OPERATION_SCOPE.CREATE_DIRECTORY OPERATION_SCOPE.DELETE_DIRECTORY))
  · simp [DeltaStorageSDK.move, verify_bind_err _ h, h]
  · simp [DeltaStorageSDK.move, verify_bind_ok _ h, h, Pure.pure, Except.pure]

/-- deleteDirectory as a case split on the gate. -/
theorem deleteDirectory_eq (sdk : DeltaStorageSDK) (id : String) :
    sdk.deleteDirectory id =
      if isCommandAllowed sdk.scope (JSNum.int OPERATION_SCOPE.DELETE_DIRECTORY) then
        Except.ok ⟨Method.DELETE, sdk.host ++ ("/api/directory/" ++ id),
          authHeaders sdk.apiKey, ReqBody.empty⟩
      else Except.error "DELETE_DIRECTORY is not allowed." := by
  cases h : isCommandAllowed sdk.scope (JSNum.int OPERATION_SCOPE.DELETE_DIRECTORY)
  · simp [DeltaStorageSDK.deleteDirectory, verify_bind_err _ h, h]
  · simp [DeltaStorageSDK.deleteDirectory, verify_bind_ok _ h, h, Pure.pure, Except.pure]

/-- file.ts readFile as a case split on the gate. -/
theorem fileTs_readFile_eq (sdk : DeltaStorageSDK) (id : Option String) :
    fileTs.readFile sdk id =
      if isCommandAllowed sdk.scope (JSNum.int OPERATION_SCOPE.READ_FILE) then
        Except.ok ⟨Method.GET, sdk.host ++ ("/files/" ++ id.getD ""),
          authHeaders sdk.apiKey, ReqBody.empty⟩
      else Except.error "READ_FILE is not allowed." := by
  cases h : isCommandAllowed sdk.scope (JSNum.int OPERATION_SCOPE.READ_FILE)
  · simp [fileTs.readFile, verify_bind_err _ h, h]
  · simp [fileTs.readFile, verify_bind_ok _ h, h, Pure.pure, Except.pure]

/-- file.ts uploadFile as a case split on the gate. -/
theorem fileTs_uploadFile_eq (sdk : DeltaStorageSDK) (name : String)
    (file : Blob) (collectionName directoryId : String)
    (storageClasses : Option (List String)) :
    fileTs.uploadFile sdk name file collectionName directoryId storageClasses =
      if isCommandAllowed sdk.scope (JSNum.int OPERATION_SCOPE.UPLOAD_FILE) then
        Except.ok ⟨Method.POST, sdk.host ++ "/files/upload",
          authHeaders sdk.apiKey,
          ReqBody.form
            ([("name", FormVal.str name),
              ("file", FormVal.blob file),
              ("collectionName", FormVal.str collectionName),
              ("directoryId", FormVal.str directoryId)] ++
             (match storageClasses with
              | some xs =>
                if 0 < xs.length then
                  [("storageClasses", FormVal.str (jsonStringifyStrList xs))]
                else []
              | none => []))⟩
      else Except.error "UPLOAD_FILE is not allowed." := by
  cases h : isCommandAllowed sdk.scope (JSNum.int OPERATION_SCOPE.UPLOAD_FILE)
  · simp [fileTs.uploadFile, verify_bind_err _ h, h]
  · simp [fileTs.uploadFile, verify_bind_ok _ h, h, Pure.pure, Except.pure]

/-- file.ts deleteFile as a case split on the gate. -/
theorem fileTs_deleteFile_eq (sdk : DeltaStorageSDK) (id : String) :
    fileTs.deleteFile sdk id =
      if isCommandAllowed sdk.scope (JSNum.int OPERATION_SCOPE.DELETE_FILE) then
        Except.ok ⟨Method.DELETE, sdk.host ++ ("/files/" ++ id),
          authHeaders sdk.apiKey, ReqBody.empty⟩
      else Except.error "DELETE_FILE is not allowed." := by
  cases h : isCommandAllowed sdk.scope (JSNum.int OPERATION_SCOPE.DELETE_FILE)
  · simp [fileTs.deleteFile, verify_bind_err _ h, h]
  · simp [fileTs.deleteFile, verify_bind_ok _ h, h, Pure.pure, Except.pure]

/-- file.ts renameFile as a case split on the gate. -/
theorem fileTs_renameFile_eq (sdk : DeltaStorageSDK) (id name : String) :
    fileTs.renameFile sdk id name =
      if isCommandAllowed sdk.scope
          (JSNum.int (Nat.lor OPERATION_SCOPE.UPLOAD_FILE OPERATION_SCOPE.DELETE_FILE)) then
        Except.ok ⟨Method.PUT, sdk.host ++ ("/files/" ++ id),
          authHeaders sdk.apiKey, ReqBody.json [("name", JsonVal.str name)]⟩
      else Except.error "RENAME_FILE is not allowed." := by
  cases h : isCommandAllowed sdk.scope
      (JSNum.int (Nat.lor OPERATION_SCOPE.UPLOAD_FILE OPERATION_SCOPE.DELETE_FILE))
  · simp [fileTs.renameFile, verify_bind_err _ h, h]
  · simp [fileTs.renameFile, verify_bind_ok _ h, h, Pure.pure, Except.pure]

/-- file.ts updateFile as a case split on the gate. -/
theorem fileTs_updateFile_eq (sdk : DeltaStorageSDK) (id : String)
    (name : Option String) (storageClasses : Option (List String)) :
    fileTs.updateFile sdk id name storageClasses =
      if isCommandAllowed sdk.scope
          (JSNum.int (Nat.lor OPERATION_SCOPE.UPLOAD_FILE OPERATION_SCOPE.DELETE_FILE)) then
        Except.ok ⟨Method.PUT, sdk.host ++ ("/files/" ++ id),
          authHeaders sdk.apiKey,
          ReqBody.json [("name", JsonVal.optStr name),
            ("storageClasses", JsonVal.optList storageClasses)]⟩
      else Except.error "UPDATE_FILE is not allowed." := by
  cases h : isCommandAllowed sdk.scope
      (JSNum.int (Nat.lor OPERATION_SCOPE.UPLOAD_FILE OPERATION_SCOPE.DELETE_FILE))
  · simp [fileTs.updateFile, verify_bind_err _ h, h]
  · simp [fileTs.updateFile, verify_bind_ok _ h, h, Pure.pure, Except.pure]

end OpEquations

section BitLemmas

theorem land_eq_and (s f : Nat) : Nat.land s f = s &&& f := rfl

/-- The 32-bit AND equals the required mask exactly when every bit of the
mask is present in the scope. -/
theorem land_eq_right_iff (s f : Nat) :
    (Nat.land s f = f) ↔ ∀ i, Nat.testBit f i = true → Nat.testBit s i = true := by
  constructor
  · intro h i hf
    have ht := congrArg (fun n => Nat.testBit n i) h
    simp only [land_eq_and, Nat.testBit_land, hf, Bool.and_true] at ht
    exact ht
  · intro h
    rw [land_eq_and]
    apply Nat.eq_of_testBit_eq
    intro i
    rw [Nat.testBit_land]
    cases hf : Nat.testBit f i
    · simp
    · simp [h i hf]

theorem toUInt32n_of_small (n : Nat) (h : n < 4294967296) :
    toUInt32n (n : Int) = n := by
  unfold toUInt32n
  omega

theorem ofUInt32n_of_small (n : Nat) (h : n < 2147483648) :
    ofUInt32n n = (n : Int) := by
  unfold ofUInt32n
  rw [if_pos h]

theorem toInt32_int_small (n : Nat) (h : n < 2147483648) :
    toInt32 (JSNum.int n) = (n : Int) := by
  simp only [toInt32]
  rw [toUInt32n_of_small n (by omega), ofUInt32n_of_small n h]

/-- On nonnegative 31-bit values the JavaScript AND is the plain Nat AND. -/
theorem jsAnd_small (s f : Nat) (hs : s < 2147483648) (hf : f < 2147483648) :
    jsAnd (JSNum.int s) (JSNum.int f) = JSNum.int (Nat.land s f) := by
  unfold jsAnd
  rw [toInt32_int_small s hs, toInt32_int_small f hf,
    toUInt32n_of_small s (by omega), toUInt32n_of_small f (by omega),
    ofUInt32n_of_small (Nat.land s f) (lt_of_le_of_lt (Nat.and_le_left) hs)]

end BitLemmas

/-- C1: isCommandAllowed returns true for scope 0 whatever the required mask
(including the all-capabilities mask), and for a nonzero scope it returns
true exactly when every bit of the required mask is set in the scope (the
values quantified over are the nonnegative 32-bit-safe integers the client
produces from its capability constants and parsed scopes). -/
theorem isCommandAllowed_semantics :
    (∀ flag : JSNum, isCommandAllowed (JSNum.int 0) flag = true) ∧
    (∀ s f : Nat, s ≠ 0 → s < 2147483648 → f < 2147483648 →
      (isCommandAllowed (JSNum.int s) (JSNum.int f) = true ↔
        ∀ i, Nat.testBit f i = true → Nat.testBit s i = true)) := by
  constructor
  · intro flag
    simp [isCommandAllowed, jsStrictEqNum]
  · intro s f hs hs31 hf31
    have hcond : jsStrictEqNum (JSNum.int s) (JSNum.int 0) = false := by
      simp [jsStrictEqNum]
      exact_mod_cast hs
    rw [isCommandAllowed, hcond, if_neg (by simp),
      jsAnd_small s f hs31 hf31]
    simp [jsStrictEqNum]
    exact_mod_cast land_eq_right_iff s f

/-- Witness for C1 at scope 0 with the all-capabilities mask 63 and at the
nonzero scope 5 with mask 1. -/
theorem isCommandAllowed_semantics_witness :
    isCommandAllowed (JSNum.int 0) (JSNum.int 63) = true ∧
    (isCommandAllowed (JSNum.int 5) (JSNum.int 1) = true ↔
      ∀ i, Nat.testBit 1 i = true → Nat.testBit 5 i = true) :=
  ⟨isCommandAllowed_semantics.1 (JSNum.int 63),
   isCommandAllowed_semantics.2 5 1 (by decide) (by decide) (by decide)⟩

/-- C2: every scoped resource operation (readFile, uploadFile, deleteFile,
renameFile, updateFile, readDirectory, readDirectoryBySegment,
createDirectory, renameDirectory, move, deleteDirectory) fails with its
fixed denial message and issues no request when the granted scope does not
allow its required mask, and issues exactly one request when it does. -/
theorem scoped_ops_gate (sdk : DeltaStorageSDK) (oid : Option String)
    (name coll dir id segments : String) (file : Blob)
    (optName : Option String) (scs childrenFileIds : Option (List String))
    (childrenIds : List String) (parentDirectoryId : Option String) :
    (isCommandAllowed sdk.scope (JSNum.int OPERATION_SCOPE.READ_FILE) = false →
      sdk.readFile oid = Except.error "READ_FILE is not allowed.") ∧
    (isCommandAllowed sdk.scope (JSNum.int OPERATION_SCOPE.READ_FILE) = true →
      ∃ r, sdk.readFile oid = Except.ok r) ∧
    (isCommandAllowed sdk.scope (JSNum.int OPERATION_SCOPE.UPLOAD_FILE) = false →
      sdk.uploadFile name file coll dir = Except.error "UPLOAD_FILE is not allowed.") ∧
    (isCommandAllowed sdk.scope (JSNum.int OPERATION_SCOPE.UPLOAD_FILE) = true →
      ∃ r, sdk.uploadFile name file coll dir = Except.ok r) ∧
    (isCommandAllowed sdk.scope (JSNum.int OPERATION_SCOPE.DELETE_FILE) = false →
      sdk.deleteFile id = Except.error "DELETE_FILE is not allowed.") ∧
    (isCommandAllowed sdk.scope (JSNum.int OPERATION_SCOPE.DELETE_FILE) = true →
      ∃ r, sdk.deleteFile id = Except.ok r) ∧
    (isCommandAllowed sdk.scope
        (JSNum.int (Nat.lor OPERATION_SCOPE.UPLOAD_FILE OPERATION_SCOPE.DELETE_FILE)) = false →
      sdk.renameFile id name = Except.error "RENAME_FILE is not allowed.") ∧
    (isCommandAllowed sdk.scope
        (JSNum.int (Nat.lor OPERATION_SCOPE.UPLOAD_FILE OPERATION_SCOPE.DELETE_FILE)) = true →
      ∃ r, sdk.renameFile id name = Except.ok r) ∧
    (isCommandAllowed sdk.scope
        (JSNum.int (Nat.lor OPERATION_SCOPE.UPLOAD_FILE OPERATION_SCOPE.DELETE_FILE)) = false →
      fileTs.updateFile sdk id optName scs = Except.error "UPDATE_FILE is not allowed.") ∧
    (isCommandAllowed sdk.scope
        (JSNum.int (Nat.lor OPERATION_SCOPE.UPLOAD_FILE OPERATION_SCOPE.DELETE_FILE)) = true →
      ∃ r, fileTs.updateFile sdk id optName scs = Except.ok r) ∧
    (isCommandAllowed sdk.scope (JSNum.int OPERATION_SCOPE.READ_DIRECTORY) = false →
      sdk.readDirectory oid = Except.error "READ_DIRECTORY is not allowed.") ∧
    (isCommandAllowed sdk.scope (JSNum.int OPERATION_SCOPE.READ_DIRECTORY) = true →
      ∃ r, sdk.readDirectory oid = Except.ok r) ∧
    (isCommandAllowed sdk.scope (JSNum.int OPERATION_SCOPE.READ_DIRECTORY) = false →
      sdk.readDirectoryBySegment segments = Except.error "READ_DIRECTORY is not allowed.") ∧
    (isCommandAllowed sdk.scope (JSNum.int OPERATION_SCOPE.READ_DIRECTORY) = true →
      ∃ r, sdk.readDirectoryBySegment segments = Except.ok r) ∧
    (isCommandAllowed sdk.scope (JSNum.int OPERATION_SCOPE.CREATE_DIRECTORY) = false →
      sdk.createDirectory name parentDirectoryId = Except.error "CREATE_DIRECTORY is not allowed.") ∧
    (isCommandAllowed sdk.scope (JSNum.int OPERATION_SCOPE.CREATE_DIRECTORY) = true →
      ∃ r, sdk.createDirectory name parentDirectoryId = Except.ok r) ∧
    (isCommandAllowed sdk.scope
        (JSNum.int (Nat.lor OPERATION_SCOPE.CREATE_DIRECTORY OPERATION_SCOPE.DELETE_DIRECTORY)) = false →
      sdk.renameDirectory id name = Except.error "UPDATE_DIRECTORY is not allowed.") ∧
    (isCommandAllowed sdk.scope
        (JSNum.int (Nat.lor OPERATION_SCOPE.CREATE_DIRECTORY OPERATION_SCOPE.DELETE_DIRECTORY)) = true →
      ∃ r, sdk.renameDirectory id name = Except.ok r) ∧
    (isCommandAllowed sdk.scope
        (JSNum.int (Nat.lor OPERATION_SCOPE.CREATE_DIRECTORY OPERATION_SCOPE.DELETE_DIRECTORY)) = false →
      sdk.move id childrenIds childrenFileIds = Except.error "UPDATE_DIRECTORY is not allowed.") ∧
    (isCommandAllowed sdk.scope
        (JSNum.int (Nat.lor OPERATION_SCOPE.CREATE_DIRECTORY OPERATION_SCOPE.DELETE_DIRECTORY)) = true →
      ∃ r, sdk.move id childrenIds childrenFileIds = Except.ok r) ∧
    (isCommandAllowed sdk.scope (JSNum.int OPERATION_SCOPE.DELETE_DIRECTORY) = false →
      sdk.deleteDirectory id = Except.error "DELETE_DIRECTORY is not allowed.") ∧
    (isCommandAllowed sdk.scope (JSNum.int OPERATION_SCOPE.DELETE_DIRECTORY) = true →
      ∃ r, sdk.deleteDirectory id = Except.ok r) := by
  refine ⟨fun h => by simp [readFile_eq, h], fun h => by simp [readFile_eq, h],
    fun h => by simp [uploadFile_eq, h], fun h => by simp [uploadFile_eq, h],
    fun h => by simp [deleteFile_eq, h], fun h => by simp [deleteFile_eq, h],
    fun h => by simp [renameFile_eq, h], fun h => by simp [renameFile_eq, h],
    fun h => by simp [fileTs_updateFile_eq, h], fun h => by simp [fileTs_updateFile_eq, h],
    fun h => by simp [readDirectory_eq, h], fun h => by simp [readDirectory_eq, h],
    fun h => by simp [readDirectoryBySegment_eq, h], fun h => by simp [readDirectoryBySegment_eq, h],
    fun h => by simp [createDirectory_eq, h], fun h => by simp [createDirectory_eq, h],
    fun h => by simp [renameDirectory_eq, h], fun h => by simp [renameDirectory_eq, h],
    fun h => by simp [move_eq, h], fun h => by simp [move_eq, h],
    fun h => by simp [deleteDirectory_eq, h], fun h => by simp [deleteDirectory_eq, h]⟩

/-- Witness for C2: a key of scope 64 (no capability bit) is denied readFile
with its fixed message, a key of scope 0 is allowed and the call produces a
request. -/
theorem scoped_ops_gate_witness :
    DeltaStorageSDK.readFile (DeltaStorageSDK.construct false "k.64.u.h.tok") none =
      Except.error "READ_FILE is not allowed." ∧
    (∃ r, DeltaStorageSDK.readFile (DeltaStorageSDK.construct false "k.0.u.h.tok") none =
      Except.ok r) :=
  ⟨(scoped_ops_gate (DeltaStorageSDK.construct false "k.64.u.h.tok") none
      "n" "c" "d" "i" "s" ⟨[]⟩ none none none [] none).1 (by decide),
   (scoped_ops_gate (DeltaStorageSDK.construct false "k.0.u.h.tok") none
      "n" "c" "d" "i" "s" ⟨[]⟩ none none none [] none).2.1 (by decide)⟩

/-- C3: getTotalSize and readDirectorySize unwrap the totalSize field of the
response body and return it as an unbounded integer; every value beyond 2^53
comes back exactly. -/
theorem size_queries_lossless (sdk : DeltaStorageSDK) (id : String)
    (resp : SizeResponse) (v : Int) (hbig : 9007199254740992 < v)
    (hv : resp.totalSize = v) :
    (∃ r, sdk.getTotalSize resp = Except.ok (r, v)) ∧
    (∃ r, sdk.readDirectorySize id resp = Except.ok (r, v)) := by
  subst hv
  exact ⟨⟨_, rfl⟩, ⟨_, rfl⟩⟩

/-- Witness for C3 at the value 2^53 + 1. -/
theorem size_queries_lossless_witness :
    (∃ r, DeltaStorageSDK.getTotalSize (DeltaStorageSDK.construct false "k.0.u.h.tok")
      ⟨9007199254740993⟩ = Except.ok (r, 9007199254740993)) ∧
    (∃ r, DeltaStorageSDK.readDirectorySize (DeltaStorageSDK.construct false "k.0.u.h.tok")
      "d" ⟨9007199254740993⟩ = Except.ok (r, 9007199254740993)) :=
  size_queries_lossless _ "d" ⟨9007199254740993⟩ 9007199254740993 (by decide) rfl

/-- C7: the size queries run no authorization gate: for every session,
whatever its scope, both produce their request and never an authorization
error. -/
theorem size_queries_unrestricted (sdk : DeltaStorageSDK) (id : String)
    (resp : SizeResponse) :
    (∃ r v, sdk.getTotalSize resp = Except.ok (r, v)) ∧
    (∃ r v, sdk.readDirectorySize id resp = Except.ok (r, v)) :=
  ⟨⟨_, _, rfl⟩, ⟨_, _, rfl⟩⟩

/-- C5: renameFile (both versions) and updateFile are gated on the OR of the
upload-file and delete-file bits, so a session whose scope is exactly the
UPLOAD_FILE bit is denied all of them with their fixed messages. -/
theorem renameFile_updateFile_same_mask (sdk : DeltaStorageSDK)
    (id name : String) (optName : Option String) (scs : Option (List String))
    (h : sdk.scope = JSNum.int OPERATION_SCOPE.UPLOAD_FILE) :
    sdk.renameFile id name = Except.error "RENAME_FILE is not allowed." ∧
    fileTs.renameFile sdk id name = Except.error "RENAME_FILE is not allowed." ∧
    fileTs.updateFile sdk id optName scs = Except.error "UPDATE_FILE is not allowed." := by
  have hmask : isCommandAllowed sdk.scope
      (JSNum.int (Nat.lor OPERATION_SCOPE.UPLOAD_FILE OPERATION_SCOPE.DELETE_FILE)) = false := by
    rw [h]
    decide
  exact ⟨by simp [renameFile_eq, hmask], by simp [fileTs_renameFile_eq, hmask],
    by simp [fileTs_updateFile_eq, hmask]⟩

/-- Witness for C5 at a key whose scope field is 2 (exactly the upload bit). -/
theorem renameFile_updateFile_same_mask_witness :
    DeltaStorageSDK.renameFile (DeltaStorageSDK.construct false "k.2.u.h.tok") "i" "n" =
      Except.error "RENAME_FILE is not allowed." ∧
    fileTs.renameFile (DeltaStorageSDK.construct false "k.2.u.h.tok") "i" "n" =
      Except.error "RENAME_FILE is not allowed." ∧
    fileTs.updateFile (DeltaStorageSDK.construct false "k.2.u.h.tok") "i" none none =
      Except.error "UPDATE_FILE is not allowed." :=
  renameFile_updateFile_same_mask _ "i" "n" none none (by decide)

/-- The AND of NaN with anything compares equal only to an integer 0, so a
NaN scope denies every nonzero integer mask. -/
theorem isCommandAllowed_nan (m : Int) (hm : m ≠ 0) :
    isCommandAllowed JSNum.nan (JSNum.int m) = false := by
  have hand : jsAnd JSNum.nan (JSNum.int m) = JSNum.int 0 := by
    simp [jsAnd, toInt32, toUInt32n, land_eq_and, ofUInt32n]
  simp [isCommandAllowed, jsStrictEqNum, hand]
  omega

/-- C8: a credential whose second dot-field has no parseable integer yields a
session with a NaN scope and no construction error; every operation gated on
a nonzero mask is then denied with its fixed message, while the ungated size
queries still produce their requests. -/
theorem malformed_credential_behavior (dev : Bool) (key : String)
    (oid : Option String) (name coll dir id segments : String) (file : Blob)
    (optName : Option String) (scs cfids : Option (List String))
    (cids : List String) (pdid : Option String) (resp : SizeResponse)
    (h : parseIntJS ((splitStr key '.').getD 1 "undefined") = JSNum.nan) :
    (DeltaStorageSDK.construct dev key).scope = JSNum.nan ∧
    (∀ m : Int, m ≠ 0 → isCommandAllowed JSNum.nan (JSNum.int m) = false) ∧
    (DeltaStorageSDK.construct dev key).readFile oid =
      Except.error "READ_FILE is not allowed." ∧
    (DeltaStorageSDK.construct dev key).uploadFile name file coll dir =
      Except.error "UPLOAD_FILE is not allowed." ∧
    (DeltaStorageSDK.construct dev key).deleteFile id =
      Except.error "DELETE_FILE is not allowed." ∧
    (DeltaStorageSDK.construct dev key).renameFile id name =
      Except.error "RENAME_FILE is not allowed." ∧
    fileTs.updateFile (DeltaStorageSDK.construct dev key) id optName scs =
      Except.error "UPDATE_FILE is not allowed." ∧
    (DeltaStorageSDK.construct dev key).readDirectory oid =
      Except.error "READ_DIRECTORY is not allowed." ∧
    (DeltaStorageSDK.construct dev key).readDirectoryBySegment segments =
      Except.error "READ_DIRECTORY is not allowed." ∧
    (DeltaStorageSDK.construct dev key).createDirectory name pdid =
      Except.error "CREATE_DIRECTORY is not allowed." ∧
    (DeltaStorageSDK.construct dev key).renameDirectory id name =
      Except.error "UPDATE_DIRECTORY is not allowed." ∧
    (DeltaStorageSDK.construct dev key).move id cids cfids =
      Except.error "UPDATE_DIRECTORY is not allowed." ∧
    (DeltaStorageSDK.construct dev key).deleteDirectory id =
      Except.error "DELETE_DIRECTORY is not allowed." ∧
    (∃ r v, (DeltaStorageSDK.construct dev key).getTotalSize resp = Except.ok (r, v)) ∧
    (∃ r v, (DeltaStorageSDK.construct dev key).readDirectorySize id resp = Except.ok (r, v)) := by
  have hscope : (DeltaStorageSDK.construct dev key).scope = JSNum.nan := by
    have h2 : parseIntJS ((splitStr key '.')[1]?.getD "undefined") = JSNum.nan := by
      simpa [List.getD] using h
    simp [DeltaStorageSDK.construct, h2]
  have hden : ∀ m : Nat, (m : Int) ≠ 0 →
      isCommandAllowed (DeltaStorageSDK.construct dev key).scope (JSNum.int m) = false := by
    intro m hm
    rw [hscope]
    exact isCommandAllowed_nan m hm
  refine ⟨hscope, fun m hm => isCommandAllowed_nan m hm,
    by simp [readFile_eq, hden OPERATION_SCOPE.READ_FILE (by decide)],
    by simp [uploadFile_eq, hden OPERATION_SCOPE.UPLOAD_FILE (by decide)],
    by simp [deleteFile_eq, hden OPERATION_SCOPE.DELETE_FILE (by decide)],
    by simp [renameFile_eq,
      hden (Nat.lor OPERATION_SCOPE.UPLOAD_FILE OPERATION_SCOPE.DELETE_FILE) (by decide)],
    by simp [fileTs_updateFile_eq,
      hden (Nat.lor OPERATION_SCOPE.UPLOAD_FILE OPERATION_SCOPE.DELETE_FILE) (by decide)],
    by simp [readDirectory_eq, hden OPERATION_SCOPE.READ_DIRECTORY (by decide)],
    by simp [readDirectoryBySegment_eq, hden OPERATION_SCOPE.READ_DIRECTORY (by decide)],
    by simp [createDirectory_eq, hden OPERATION_SCOPE.CREATE_DIRECTORY (by decide)],
    by simp [renameDirectory_eq,
      hden (Nat.lor OPERATION_SCOPE.CREATE_DIRECTORY OPERATION_SCOPE.DELETE_DIRECTORY) (by decide)],
    by simp [move_eq,
      hden (Nat.lor OPERATION_SCOPE.CREATE_DIRECTORY OPERATION_SCOPE.DELETE_DIRECTORY) (by decide)],
    by simp [deleteDirectory_eq, hden OPERATION_SCOPE.DELETE_DIRECTORY (by decide)],
    ⟨_, _, rfl⟩, ⟨_, _, rfl⟩⟩

/-- Witness for C8 at the key whose scope field is the word notanumber. -/
theorem malformed_credential_behavior_witness :
    (DeltaStorageSDK.construct false "key.notanumber.user.hash.tok").scope = JSNum.nan ∧
    DeltaStorageSDK.readFile (DeltaStorageSDK.construct false "key.notanumber.user.hash.tok") none =
      Except.error "READ_FILE is not allowed." ∧
    (∃ r v, DeltaStorageSDK.getTotalSize
      (DeltaStorageSDK.construct false "key.notanumber.user.hash.tok") ⟨1⟩ =
        Except.ok (r, v)) := by
  have t := malformed_credential_behavior false "key.notanumber.user.hash.tok"
    none "n" "c" "d" "i" "s" ⟨[]⟩ none none none [] none ⟨1⟩ (by decide)
  obtain ⟨h1, _, h3, _, _, _, _, _, _, _, _, _, _, h14, _⟩ := t
  exact ⟨h1, h3, h14⟩

/-- Names of the multipart fields of a request body, in append order. -/
def ReqBody.formNames : ReqBody → List String
  | ReqBody.form kvs => kvs.map Prod.fst
  | _ => []

/-- Multipart field names of an operation result, empty on denial. -/
def formNamesOf : Except String HttpRequest → List String
  | Except.ok r => r.body.formNames
  | Except.error _ => []

/-- C4 counterexample: the file.ts uploadFile, invoked with a nonempty
storage-class list by an allowed session, issues its request, yet the
multipart payload carries no edgeToken field, against the claim that every
uploadFile invocation sends the auxiliary edge token. -/
theorem uploadFile_payload_counterexample :
    (∃ r, fileTs.uploadFile (DeltaStorageSDK.construct false "k.0.u.h.tok")
      "n" ⟨[]⟩ "c" "d" (some ["hot"]) = Except.ok r) ∧
    ¬ "edgeToken" ∈ formNamesOf (fileTs.uploadFile
      (DeltaStorageSDK.construct false "k.0.u.h.tok") "n" ⟨[]⟩ "c" "d" (some ["hot"])) := by
  constructor
  · exact ⟨_, rfl⟩
  · decide

/-- C4 as amended: the class uploadFile sends name, binary content,
collection name, directory id and the session edge token (it has no
storage-class parameter), while the file.ts uploadFile sends name, binary
content, collection name, directory id and the serialized storage-class
list when a nonempty one is supplied, but never the edge token. -/
theorem uploadFile_payloads (sdk : DeltaStorageSDK) (name : String)
    (file : Blob) (coll dir : String) (xs : List String)
    (hallow : isCommandAllowed sdk.scope (JSNum.int OPERATION_SCOPE.UPLOAD_FILE) = true)
    (hxs : xs ≠ []) :
    sdk.uploadFile name file coll dir =
      Except.ok ⟨Method.POST, sdk.host ++ "/api/files/upload",
        authHeaders sdk.apiKey,
        ReqBody.form
          [("name", FormVal.str name),
           ("file", FormVal.blob file),
           ("collectionName", FormVal.str coll),
           ("directoryId", FormVal.str dir),
           ("edgeToken", FormVal.str (jsString sdk.edgeToken))]⟩ ∧
    fileTs.uploadFile sdk name file coll dir (some xs) =
      Except.ok ⟨Method.POST, sdk.host ++ "/files/upload",
        authHeaders sdk.apiKey,
        ReqBody.form
          [("name", FormVal.str name),
           ("file", FormVal.blob file),
           ("collectionName", FormVal.str coll),
           ("directoryId", FormVal.str dir),
           ("storageClasses", FormVal.str (jsonStringifyStrList xs))]⟩ := by
  have hlen : 0 < xs.length := List.length_pos.mpr hxs
  constructor
  · simp [uploadFile_eq, hallow]
  · simp [fileTs_uploadFile_eq, hallow, hlen]

/-- Witness for C4 as amended, at a scope-0 session and the storage-class
list containing hot. -/
theorem uploadFile_payloads_witness :
    DeltaStorageSDK.uploadFile (DeltaStorageSDK.construct false "k.0.u.h.tok")
      "n" ⟨[]⟩ "c" "d" =
      Except.ok ⟨Method.POST,
        (DeltaStorageSDK.construct false "k.0.u.h.tok").host ++ "/api/files/upload",
        authHeaders (DeltaStorageSDK.construct false "k.0.u.h.tok").apiKey,
        ReqBody.form
          [("name", FormVal.str "n"),
           ("file", FormVal.blob ⟨[]⟩),
           ("collectionName", FormVal.str "c"),
           ("directoryId", FormVal.str "d"),
           ("edgeToken", FormVal.str
             (jsString (DeltaStorageSDK.construct false "k.0.u.h.tok").edgeToken))]⟩ ∧
    fileTs.uploadFile (DeltaStorageSDK.construct false "k.0.u.h.tok")
      "n" ⟨[]⟩ "c" "d" (some ["hot"]) =
      Except.ok ⟨Method.POST,
        (DeltaStorageSDK.construct false "k.0.u.h.tok").host ++ "/files/upload",
        authHeaders (DeltaStorageSDK.construct false "k.0.u.h.tok").apiKey,
        ReqBody.form
          [("name", FormVal.str "n"),
           ("file", FormVal.blob ⟨[]⟩),
           ("collectionName", FormVal.str "c"),
           ("directoryId", FormVal.str "d"),
           ("storageClasses", FormVal.str (jsonStringifyStrList ["hot"]))]⟩ :=
  uploadFile_payloads (DeltaStorageSDK.construct false "k.0.u.h.tok")
    "n" ⟨[]⟩ "c" "d" ["hot"] (by decide) (by decide)

section SplitJoinLemmas

theorem data_mk (l : List Char) : (String.mk l).data = l := rfl

theorem data_append (a b : String) : (a ++ b).data = a.data ++ b.data := rfl

theorem splitChar_ne_nil (sep : Char) (l : List Char) : splitChar sep l ≠ [] := by
  induction l with
  | nil => simp [splitChar]
  | cons c cs ih =>
    simp only [splitChar]
    by_cases hc : c = sep
    · simp [hc]
    · simp only [if_neg hc]
      cases hsplit : splitChar sep cs with
      | nil => simp
      | cons r rs => simp

/-- Splitting a part free of the separator yields just that part. -/
theorem splitChar_of_not_mem (sep : Char) (l : List Char) (h : sep ∉ l) :
    splitChar sep l = [l] := by
  induction l with
  | nil => rfl
  | cons c cs ih =>
    have hc : c ≠ sep := fun he => h (he ▸ List.mem_cons_self c cs)
    have hcs : sep ∉ cs := fun hm => h (List.mem_cons_of_mem c hm)
    simp only [splitChar, if_neg hc, ih hcs]

/-- Splitting past a separator-free part peels that part off. -/
theorem splitChar_append (sep : Char) (p t : List Char) (hp : sep ∉ p) :
    splitChar sep (p ++ sep :: t) = p :: splitChar sep t := by
  induction p with
  | nil => simp [splitChar]
  | cons c p' ih =>
    have hc : c ≠ sep := fun he => hp (he ▸ List.mem_cons_self c p')
    have hp' : sep ∉ p' := fun hm => hp (List.mem_cons_of_mem c hm)
    simp only [List.cons_append, splitChar, if_neg hc, List.append_eq, ih hp']

theorem joinWith_cons_cons (sep x y : List Char) (xs : List (List Char)) :
    joinWith sep (x :: y :: xs) = x ++ sep ++ joinWith sep (y :: xs) := rfl

/-- Split is a left inverse of join on separator-free nonempty part lists. -/
theorem splitChar_joinWith (sep : Char) (ps : List (List Char)) (hne : ps ≠ [])
    (h : ∀ p ∈ ps, sep ∉ p) : splitChar sep (joinWith [sep] ps) = ps := by
  induction ps with
  | nil => cases hne rfl
  | cons p rest ih =>
    cases rest with
    | nil => simp [joinWith, splitChar_of_not_mem sep p (h p (by simp))]
    | cons q rest' =>
      have hexp : joinWith [sep] (p :: q :: rest') =
          p ++ sep :: joinWith [sep] (q :: rest') := by
        rw [joinWith_cons_cons]
        simp
      rw [hexp, splitChar_append sep p _ (h p (by simp)),
        ih (by simp) (fun x hx => h x (List.mem_cons_of_mem p hx))]

/-- Prepending the same text to every part turns a join on an extended
separator into a join on the bare one. -/
theorem joinWith_sep_pre (sep : Char) (pre : List Char)
    (ps : List (List Char)) (hne : ps ≠ []) :
    pre ++ joinWith (sep :: pre) ps =
      joinWith [sep] (ps.map (fun p => pre ++ p)) := by
  induction ps with
  | nil => cases hne rfl
  | cons p rest ih =>
    cases rest with
    | nil => simp [joinWith]
    | cons q rest' =>
      have hmap : List.map (fun p => pre ++ p) (p :: q :: rest') =
          (pre ++ p) :: List.map (fun p => pre ++ p) (q :: rest') := rfl
      have hjw : joinWith [sep] ((pre ++ p) :: List.map (fun p => pre ++ p) (q :: rest')) =
          (pre ++ p) ++ [sep] ++ joinWith [sep] (List.map (fun p => pre ++ p) (q :: rest')) := rfl
      rw [hmap, hjw, ← ih (by simp), joinWith_cons_cons]
      simp [List.append_assoc]

theorem takeWhile_all_append (P : Char → Bool) (a b : List Char)
    (h : ∀ x ∈ a, P x = true) :
    List.takeWhile P (a ++ b) = a ++ List.takeWhile P b := by
  induction a with
  | nil => simp
  | cons c a' ih =>
    have hc := h c (by simp)
    simp [List.cons_append, List.takeWhile_cons, hc,
      ih (fun x hx => h x (List.mem_cons_of_mem c hx))]

theorem dropWhile_all_append (P : Char → Bool) (a b : List Char)
    (h : ∀ x ∈ a, P x = true) :
    List.dropWhile P (a ++ b) = List.dropWhile P b := by
  induction a with
  | nil => simp
  | cons c a' ih =>
    have hc := h c (by simp)
    simp [List.cons_append, List.dropWhile_cons, hc,
      ih (fun x hx => h x (List.mem_cons_of_mem c hx))]

end SplitJoinLemmas

/-- One query parameter split at its first equals sign into key and value. -/
def paramKV (p : List Char) : List Char × List Char :=
  (p.takeWhile (fun c => c ≠ '='), (p.dropWhile (fun c => c ≠ '=')).tail)

/-- Characters after the first question mark of a URL. -/
def queryOfUrl (url : String) : List Char :=
  (url.data.dropWhile (fun c => c ≠ '?')).tail

/-- Query parameters of a URL, split on ampersands, each split at its first
equals sign. -/
def segParams (url : String) : List (List Char × List Char) :=
  (splitChar '&' (queryOfUrl url)).map paramKV

theorem paramKV_seg (p : List Char) :
    paramKV ("segment=".data ++ p) = ("segment".data, p) := by
  have hsplit : "segment=".data ++ p = "segment".data ++ ('=' :: p) := by
    have : "segment=".data = "segment".data ++ ['='] := by decide
    rw [this, List.append_assoc]
    rfl
  rw [paramKV, hsplit,
    takeWhile_all_append _ _ _ (by decide),
    dropWhile_all_append _ _ _ (by decide)]
  simp [List.takeWhile_cons, List.dropWhile_cons]

/-- C6: on a slash-delimited path whose components are nonempty and free of
the separator characters, an allowed readDirectoryBySegment call produces a
request whose query string carries one segment parameter per component, in
component order, every one nonempty. -/
theorem readDirectoryBySegment_query (sdk : DeltaStorageSDK)
    (ps : List (List Char))
    (hallow : isCommandAllowed sdk.scope (JSNum.int OPERATION_SCOPE.READ_DIRECTORY) = true)
    (hhost : '?' ∉ sdk.host.data)
    (hne : ps ≠ [])
    (hcomp : ∀ p ∈ ps, p ≠ [] ∧ '/' ∉ p ∧ '&' ∉ p) :
    ∃ r, sdk.readDirectoryBySegment (String.mk (joinWith ['/'] ps)) = Except.ok r ∧
      segParams r.url = ps.map (fun p => ("segment".data, p)) ∧
      ∀ kv ∈ segParams r.url, kv.2 ≠ [] := by
  have hsplit : splitChar '/' (String.mk (joinWith ['/'] ps)).data = ps := by
    rw [data_mk]
    exact splitChar_joinWith '/' ps hne (fun p hp => (hcomp p hp).2.1)
  have hq : queryOfUrl (sdk.host ++ ("/api/directory?segment=" ++
      String.mk (joinWith ("&segment=".data) ps))) =
      "segment=".data ++ joinWith ("&segment=".data) ps := by
    have hhostb : ∀ x ∈ sdk.host.data, (fun c => decide (c ≠ '?')) x = true := by
      intro x hx
      simp only [decide_eq_true_eq]
      exact fun he => hhost (he ▸ hx)
    rw [queryOfUrl, data_append, data_append, data_mk,
      dropWhile_all_append _ _ _ hhostb]
    have hlit : "/api/directory?segment=".data =
        "/api/directory".data ++ ('?' :: "segment=".data) := by decide
    rw [hlit, List.append_assoc, dropWhile_all_append _ _ _ (by decide)]
    simp [List.cons_append, List.dropWhile_cons, data_mk]
  have hpre : "segment=".data ++ joinWith ("&segment=".data) ps =
      joinWith ['&'] (ps.map (fun p => "segment=".data ++ p)) := by
    have hamp : ("&segment=".data : List Char) = '&' :: "segment=".data := by decide
    rw [hamp]
    exact joinWith_sep_pre '&' "segment=".data ps hne
  have hsplit2 : splitChar '&' (joinWith ['&'] (ps.map (fun p => "segment=".data ++ p))) =
      ps.map (fun p => "segment=".data ++ p) := by
    apply splitChar_joinWith
    · intro hmn
      exact hne (List.map_eq_nil_iff.mp hmn)
    · intro p' hp'
      obtain ⟨p, hp, rfl⟩ := List.mem_map.mp hp'
      intro hmem
      rcases List.mem_append.mp hmem with h1 | h2
      · exact absurd h1 (by decide)
      · exact (hcomp p hp).2.2 h2
  have hparams : segParams (sdk.host ++ ("/api/directory?segment=" ++
      String.mk (joinWith ("&segment=".data) ps))) =
      ps.map (fun p => ("segment".data, p)) := by
    rw [segParams, hq, hpre, hsplit2, List.map_map]
    apply List.map_congr_left
    intro p hp
    exact paramKV_seg p
  refine ⟨⟨Method.GET, sdk.host ++ ("/api/directory?segment=" ++
      String.mk (joinWith ("&segment=".data) ps)),
      authHeaders sdk.apiKey, ReqBody.empty⟩, ?_, ?_, ?_⟩
  · simp [readDirectoryBySegment_eq, hallow, hsplit]
  · exact hparams
  · intro kv hkv
    rw [hparams] at hkv
    obtain ⟨p, hp, rfl⟩ := List.mem_map.mp hkv
    exact (hcomp p hp).1

/-- Witness for C6 at the path a slash b slash c under a scope-0 session. -/
theorem readDirectoryBySegment_query_witness :
    ∃ r, DeltaStorageSDK.readDirectoryBySegment
      (DeltaStorageSDK.construct false "k.0.u.h.tok")
      (String.mk (joinWith ['/'] [['a'], ['b'], ['c']])) = Except.ok r ∧
      segParams r.url = [['a'], ['b'], ['c']].map (fun p => ("segment".data, p)) ∧
      ∀ kv ∈ segParams r.url, kv.2 ≠ [] :=
  readDirectoryBySegment_query (DeltaStorageSDK.construct false "k.0.u.h.tok")
    [['a'], ['b'], ['c']] (by decide) (by decide) (by decide) (by decide)

/-- One string is an initial run of another. -/
def strHasPre (pre s : String) : Prop := ∃ t, s = pre ++ t

/-- Boolean initial-run test on character lists. -/
def isPrefixB : List Char → List Char → Bool
  | [], _ => true
  | _ :: _, [] => false
  | c :: cs, d :: ds => c = d && isPrefixB cs ds

/-- The path family named by the spec: files paths, directory paths, or the
total-size path, all rooted directly at the host. -/
def specPathOk (p : String) : Bool :=
  isPrefixB "/files/".data p.data || isPrefixB "/directory/".data p.data ||
    p == "/total-size"

/-- Path part of a URL on the given host: the characters after the host. -/
def pathAfter (host url : String) : String :=
  String.mk (url.data.drop host.data.length)

/-- URL of an operation result, empty on denial. -/
def urlOf : Except String HttpRequest → String
  | Except.ok r => r.url
  | Except.error _ => ""

theorem strAppend_assoc (a b c : String) : (a ++ b) ++ c = a ++ (b ++ c) := by
  cases a with
  | mk la =>
    cases b with
    | mk lb =>
      cases c with
      | mk lc =>
        show String.mk ((la ++ lb) ++ lc) = String.mk (la ++ (lb ++ lc))
        rw [List.append_assoc]

theorem dirSlash (x : String) :
    ("/api/directory/" ++ x : String) = "/api/directory" ++ ("/" ++ x) := by
  have h : ("/api/directory/" : String) = "/api/directory" ++ "/" := by decide
  rw [h, strAppend_assoc]

theorem dirQuery (x : String) :
    ("/api/directory?segment=" ++ x : String) =
      "/api/directory" ++ ("?segment=" ++ x) := by
  have h : ("/api/directory?segment=" : String) = "/api/directory" ++ "?segment=" := by
    decide
  rw [h, strAppend_assoc]

/-- The path families the source actually uses: the class methods root at
api files, api directory and api total-size, the file.ts functions at
files. -/
def apiPathOk (p : String) : Prop :=
  strHasPre "/api/files/" p ∨ strHasPre "/api/directory" p ∨
    strHasPre "/files/" p ∨ p = "/api/total-size"

/-- Shape shared by every issued request: a URL that is the session host
followed by one of the used path families, and exactly the bearer header
with the raw composite key. -/
def reqShape (sdk : DeltaStorageSDK) (r : HttpRequest) : Prop :=
  (∃ p, r.url = sdk.host ++ p ∧ apiPathOk p) ∧
    r.headers = authHeaders sdk.apiKey

/-- C9 counterexample: the class readFile of a production session issues its
request at the api files path, which is not under the families the claim
names (files, directory, total-size directly under the host). -/
theorem request_paths_counterexample :
    urlOf (DeltaStorageSDK.readFile (DeltaStorageSDK.construct false "k.0.u.h.tok") none) =
      "https://api.delta.storage/api/files/" ∧
    specPathOk (pathAfter "https://api.delta.storage"
      (urlOf (DeltaStorageSDK.readFile (DeltaStorageSDK.construct false "k.0.u.h.tok") none))) =
      false := by
  constructor
  · decide
  · decide

/-- C9 as amended: every request issued by a resource operation targets the
host followed by an api files, api directory, api total-size path (class
methods) or a files path (file.ts functions), and carries the bearer header
with the raw composite key. -/
theorem request_paths_and_auth (sdk : DeltaStorageSDK) (oid : Option String)
    (name coll dir id segments : String) (file : Blob)
    (optName : Option String) (scs cfids : Option (List String))
    (cids : List String) (pdid : Option String) (resp : SizeResponse) :
    (∀ r, sdk.readFile oid = Except.ok r → reqShape sdk r) ∧
    (∀ r, sdk.uploadFile name file coll dir = Except.ok r → reqShape sdk r) ∧
    (∀ r, sdk.deleteFile id = Except.ok r → reqShape sdk r) ∧
    (∀ r, sdk.renameFile id name = Except.ok r → reqShape sdk r) ∧
    (∀ r, sdk.readDirectory oid = Except.ok r → reqShape sdk r) ∧
    (∀ r, sdk.readDirectoryBySegment segments = Except.ok r → reqShape sdk r) ∧
    (∀ r, sdk.createDirectory name pdid = Except.ok r → reqShape sdk r) ∧
    (∀ r, sdk.renameDirectory id name = Except.ok r → reqShape sdk r) ∧
    (∀ r, sdk.move id cids cfids = Except.ok r → reqShape sdk r) ∧
    (∀ r, sdk.deleteDirectory id = Except.ok r → reqShape sdk r) ∧
    (∀ r v, sdk.getTotalSize resp = Except.ok (r, v) → reqShape sdk r) ∧
    (∀ r v, sdk.readDirectorySize id resp = Except.ok (r, v) → reqShape sdk r) ∧
    (∀ r, fileTs.readFile sdk oid = Except.ok r → reqShape sdk r) ∧
    (∀ r, fileTs.uploadFile sdk name file coll dir scs = Except.ok r → reqShape sdk r) ∧
    (∀ r, fileTs.deleteFile sdk id = Except.ok r → reqShape sdk r) ∧
    (∀ r, fileTs.renameFile sdk id name = Except.ok r → reqShape sdk r) ∧
    (∀ r, fileTs.updateFile sdk id optName scs = Except.ok r → reqShape sdk r) := by
  refine ⟨?_, ?_, ?_, ?_, ?_, ?_, ?_, ?_, ?_, ?_, ?_, ?_, ?_, ?_, ?_, ?_, ?_⟩
  · intro r hr
    rw [readFile_eq] at hr
    split at hr
    · cases hr
      exact ⟨⟨_, rfl, Or.inl ⟨_, rfl⟩⟩, rfl⟩
    · cases hr
  · intro r hr
    rw [uploadFile_eq] at hr
    split at hr
    · cases hr
      exact ⟨⟨_, rfl, Or.inl ⟨"upload", by decide⟩⟩, rfl⟩
    · cases hr
  · intro r hr
    rw [deleteFile_eq] at hr
    split at hr
    · cases hr
      exact ⟨⟨_, rfl, Or.inl ⟨_, rfl⟩⟩, rfl⟩
    · cases hr
  · intro r hr
    rw [renameFile_eq] at hr
    split at hr
    · cases hr
      exact ⟨⟨_, rfl, Or.inl ⟨_, rfl⟩⟩, rfl⟩
    · cases hr
  · intro r hr
    rw [readDirectory_eq] at hr
    split at hr
    · cases hr
      exact ⟨⟨_, rfl, Or.inr (Or.inl ⟨_, dirSlash _⟩)⟩, rfl⟩
    · cases hr
  · intro r hr
    rw [readDirectoryBySegment_eq] at hr
    split at hr
    · cases hr
      exact ⟨⟨_, rfl, Or.inr (Or.inl ⟨_, dirQuery _⟩)⟩, rfl⟩
    · cases hr
  · intro r hr
    rw [createDirectory_eq] at hr
    split at hr
    · cases hr
      exact ⟨⟨_, rfl, Or.inr (Or.inl ⟨"/create", by decide⟩)⟩, rfl⟩
    · cases hr
  · intro r hr
    rw [renameDirectory_eq] at hr
    split at hr
    · cases hr
      exact ⟨⟨_, rfl, Or.inr (Or.inl ⟨_, dirSlash _⟩)⟩, rfl⟩
    · cases hr
  · intro r hr
    rw [move_eq] at hr
    split at hr
    · cases hr
      exact ⟨⟨_, rfl, Or.inr (Or.inl ⟨_, dirSlash _⟩)⟩, rfl⟩
    · cases hr
  · intro r hr
    rw [deleteDirectory_eq] at hr
    split at hr
    · cases hr
      exact ⟨⟨_, rfl, Or.inr (Or.inl ⟨_, dirSlash _⟩)⟩, rfl⟩
    · cases hr
  · intro r v hr
    rw [DeltaStorageSDK.getTotalSize] at hr
    injection hr with h
    injection h with h1 h2
    subst h1
    exact ⟨⟨_, rfl, Or.inr (Or.inr (Or.inr rfl))⟩, rfl⟩
  · intro r v hr
    rw [DeltaStorageSDK.readDirectorySize] at hr
    injection hr with h
    injection h with h1 h2
    subst h1
    exact ⟨⟨_, rfl, Or.inr (Or.inl ⟨_, dirSlash _⟩)⟩, rfl⟩
  · intro r hr
    rw [fileTs_readFile_eq] at hr
    split at hr
    · cases hr
      exact ⟨⟨_, rfl, Or.inr (Or.inr (Or.inl ⟨_, rfl⟩))⟩, rfl⟩
    · cases hr
  · intro r hr
    rw [fileTs_uploadFile_eq] at hr
    split at hr
    · cases hr
      exact ⟨⟨_, rfl, Or.inr (Or.inr (Or.inl ⟨"upload", by decide⟩))⟩, rfl⟩
    · cases hr
  · intro r hr
    rw [fileTs_deleteFile_eq] at hr
    split at hr
    · cases hr
      exact ⟨⟨_, rfl, Or.inr (Or.inr (Or.inl ⟨_, rfl⟩))⟩, rfl⟩
    · cases hr
  · intro r hr
    rw [fileTs_renameFile_eq] at hr
    split at hr
    · cases hr
      exact ⟨⟨_, rfl, Or.inr (Or.inr (Or.inl ⟨_, rfl⟩))⟩, rfl⟩
    · cases hr
  · intro r hr
    rw [fileTs_updateFile_eq] at hr
    split at hr
    · cases hr
      exact ⟨⟨_, rfl, Or.inr (Or.inr (Or.inl ⟨_, rfl⟩))⟩, rfl⟩
    · cases hr

/-- Witness for C9 as amended, at the request the class readFile of a
production scope-0 session issues. -/
theorem request_paths_and_auth_witness :
    reqShape (DeltaStorageSDK.construct false "k.0.u.h.tok")
      ⟨Method.GET, "https://api.delta.storage/api/files/",
        authHeaders "k.0.u.h.tok", ReqBody.empty⟩ :=
  (request_paths_and_auth (DeltaStorageSDK.construct false "k.0.u.h.tok")
    none "n" "c" "d" "i" "s" ⟨[]⟩ none none none [] none ⟨1⟩).1 _ rfl

/-- One client call with its arguments (the operations of src/index.ts and
src/file.ts that touch the session). -/
inductive Op where
  | opReadFile (id : Option String)
  | opUploadFile (name : String) (file : Blob) (coll dir : String)
  | opDeleteFile (id : String)
  | opRenameFile (id name : String)
  | opReadDirectory (id : Option String)
  | opReadDirectoryBySegment (segments : String)
  | opCreateDirectory (name : String) (pdid : Option String)
  | opRenameDirectory (id name : String)
  | opMove (parentId : String) (cids : List String) (cfids : Option (List String))
  | opDeleteDirectory (id : String)
  | opGetTotalSize (resp : SizeResponse)
  | opReadDirectorySize (id : String) (resp : SizeResponse)
  | opFileReadFile (id : Option String)
  | opFileUploadFile (name : String) (file : Blob) (coll dir : String)
      (scs : Option (List String))
  | opFileDeleteFile (id : String)
  | opFileRenameFile (id name : String)
  | opFileUpdateFile (id : String) (name : Option String) (scs : Option (List String))

/-- State-passing form of the client: each call returns its result together
with the session state after the call body. No method body of the source
assigns to this.apiKey, this.scope, this.host or this.edgeToken (they are
declared readonly and only the constructor writes them), so every branch
returns the incoming state. The optional integer carries the unwrapped
totalSize of the size queries. -/
def runOp (sdk : DeltaStorageSDK) :
    Op → Except String (HttpRequest × Option Int) × DeltaStorageSDK
  | Op.opReadFile id => ((sdk.readFile id).map (fun r => (r, none)), sdk)
  | Op.opUploadFile name file coll dir =>
      ((sdk.uploadFile name file coll dir).map (fun r => (r, none)), sdk)
  | Op.opDeleteFile id => ((sdk.deleteFile id).map (fun r => (r, none)), sdk)
  | Op.opRenameFile id name => ((sdk.renameFile id name).map (fun r => (r, none)), sdk)
  | Op.opReadDirectory id => ((sdk.readDirectory id).map (fun r => (r, none)), sdk)
  | Op.opReadDirectoryBySegment segments =>
      ((sdk.readDirectoryBySegment segments).map (fun r => (r, none)), sdk)
  | Op.opCreateDirectory name pdid =>
      ((sdk.createDirectory name pdid).map (fun r => (r, none)), sdk)
  | Op.opRenameDirectory id name =>
      ((sdk.renameDirectory id name).map (fun r => (r, none)), sdk)
  | Op.opMove parentId cids cfids =>
      ((sdk.move parentId cids cfids).map (fun r => (r, none)), sdk)
  | Op.opDeleteDirectory id => ((sdk.deleteDirectory id).map (fun r => (r, none)), sdk)
  | Op.opGetTotalSize resp =>
      ((sdk.getTotalSize resp).map (fun rv => (rv.1, some rv.2)), sdk)
  | Op.opReadDirectorySize id resp =>
      ((sdk.readDirectorySize id resp).map (fun rv => (rv.1, some rv.2)), sdk)
  | Op.opFileReadFile id => ((fileTs.readFile sdk id).map (fun r => (r, none)), sdk)
  | Op.opFileUploadFile name file coll dir scs =>
      ((fileTs.uploadFile sdk name file coll dir scs).map (fun r => (r, none)), sdk)
  | Op.opFileDeleteFile id => ((fileTs.deleteFile sdk id).map (fun r => (r, none)), sdk)
  | Op.opFileRenameFile id name =>
      ((fileTs.renameFile sdk id name).map (fun r => (r, none)), sdk)
  | Op.opFileUpdateFile id name scs =>
      ((fileTs.updateFile sdk id name scs).map (fun r => (r, none)), sdk)

/-- Modelled from the spec: a strict base-10 read of the scope field, the
parse the claim describes (ECMAScript parseInt with radix 10: whitespace,
optional sign, longest run of decimal digits, NaN when there is none). Kept
separate from parseIntJS to compare the two. -/
def parseIntBase10 (s : String) : JSNum :=
  let cs0 := s.data.dropWhile isJsSpace
  let signed : Int × List Char :=
    match cs0 with
    | '-' :: rest => (-1, rest)
    | '+' :: rest => (1, rest)
    | _ => (1, cs0)
  let ds := takeDigits digitVal signed.2
  if ds.isEmpty then JSNum.nan
  else JSNum.int (signed.1 * (digitsToNat 10 ds : Int))

/-- C10 counterexample: a key whose scope field is 0x10 decodes to scope 16,
because parseInt without a radix treats a 0x prefix as hexadecimal, while a
base-10 read of the same field stops at the x and yields 0 — so the scope is
not the base-10 integer value of the second field. -/
theorem constructor_base10_counterexample :
    (DeltaStorageSDK.construct false "k.0x10.u.h.t").scope = JSNum.int 16 ∧
    parseIntBase10 "0x10" = JSNum.int 0 ∧
    (DeltaStorageSDK.construct false "k.0x10.u.h.t").scope ≠ parseIntBase10 "0x10" := by
  refine ⟨by decide, by decide, by decide⟩

/-- C10 as amended: the composite key is parsed exactly once, in the
constructor — split on dots, second field through parseInt (decimal by
default, hexadecimal under a 0x or 0X prefix), fifth field kept verbatim as
the edge token, the raw key kept as apiKey — and every operation leaves the
session state unchanged. -/
theorem constructor_parse_once :
    (∀ dev apiKey,
      (DeltaStorageSDK.construct dev apiKey).apiKey = apiKey ∧
      (DeltaStorageSDK.construct dev apiKey).scope =
        parseIntJS ((splitStr apiKey '.').getD 1 "undefined") ∧
      (DeltaStorageSDK.construct dev apiKey).edgeToken = (splitStr apiKey '.')[4]?) ∧
    (∀ (sdk : DeltaStorageSDK) (o : Op), (runOp sdk o).2 = sdk) := by
  constructor
  · intro dev apiKey
    refine ⟨rfl, ?_, rfl⟩
    simp [DeltaStorageSDK.construct, List.getD]
  · intro sdk o
    cases o <;> rfl

example : (DeltaStorageSDK.construct false "k.3.u.h.tok").scope = JSNum.int 3 := by decide
example : (DeltaStorageSDK.construct false "k.3.u.h.tok").edgeToken = some "tok" := by decide
example : (DeltaStorageSDK.construct false "k.3.u.h.tok").host = "https://api.delta.storage" := by decide
example :
    DeltaStorageSDK.readFile (DeltaStorageSDK.construct false "k.3.u.h.tok") none =
      Except.ok ⟨Method.GET, "https://api.delta.storage/api/files/",
        authHeaders "k.3.u.h.tok", ReqBody.empty⟩ := rfl
example :
    DeltaStorageSDK.deleteDirectory (DeltaStorageSDK.construct false "k.3.u.h.tok") "d1" =
      Except.error "DELETE_DIRECTORY is not allowed." := rfl
example : parseIntJS "3" = JSNum.int 3 := by decide
example : parseIntJS "0x10" = JSNum.int 16 := by decide
example : parseIntJS "notanumber" = JSNum.nan := by decide
example : parseIntJS "-42stop" = JSNum.int (-42) := by decide
example : isCommandAllowed (JSNum.int 0) (JSNum.int 63) = true := by decide
example : isCommandAllowed (JSNum.int 3) (JSNum.int 32) = false := by decide
example : isCommandAllowed (JSNum.nan) (JSNum.int 2) = false := by decide

end DeltaSDK
